import Mathlib

/-!
# Verification of the sensor state transition detector

Shallow embedding of the MQTT message-handling pipeline of the repository,
covering its two near-duplicate implementations:

* variant A: `back-end/mqtt_client.py` (`on_message`, `_normalize_state`,
  `handle_pizza_pass`) — has a retained-message guard, and on a debounce
  rejection stores the incoming state as the new last state;
* variant B: `back-end/app/services/mqtt_client.py` (`_on_message`,
  `_normalize_state`, `_handle_pizza_count`) — has no retained-message
  guard, and on a debounce rejection keeps the previous last state.

Machine integers are modelled as `Nat`: `int(time.time() * 1000)` is a
non-negative integer, and for non-negative times the Python test
`(now_ms - last_ms) < 100` agrees with the truncated `Nat` subtraction
(a negative difference and a truncated-to-zero difference both pass `< 100`).
Python state strings are kept as Lean `String`s; `str.strip().lower()` is
modelled by `String.trim` and `String.toLower` (the payloads involved are
ASCII). A JSON payload is modelled by the four shapes the handlers
distinguish: empty payload, non-JSON payload, JSON that is not an object,
and an object carrying an optional `state` and optional `id` field.
-/

namespace PizzaDetector

/-- `_DEBOUNCE_MS = 100` in both variants. -/
def DEBOUNCE_MS : Nat := 100

/-- Python's `str.strip` whitespace set, restricted to ASCII
(space, tab, newline, carriage return, vertical tab, form feed). -/
def isSpaceChar (c : Char) : Bool :=
  c == ' ' || c == '\t' || c == '\n' || c == '\r' || c == '\x0b' || c == '\x0c'

/-- Python's `str.lower` on one ASCII character. -/
def lowerChar (c : Char) : Char :=
  if 'A' ≤ c && c ≤ 'Z' then Char.ofNat (c.toNat + 32) else c

/-- Remove leading and trailing whitespace from a character list. -/
def stripChars (l : List Char) : List Char :=
  ((l.dropWhile isSpaceChar).reverse.dropWhile isSpaceChar).reverse

/-- Python's `s.strip().lower()` (ASCII model, kernel-reducible). -/
def pyStripLower (s : String) : String :=
  ⟨(stripChars s.data).map lowerChar⟩

/-- Does the first character list begin with the second one? -/
def beginsWith : List Char → List Char → Bool
  | _, [] => true
  | [], _ :: _ => false
  | c :: cs, d :: ds => c == d && beginsWith cs ds

/-- Python's `s.startswith(pat)` (kernel-reducible). -/
def pyStartsWith (s pat : String) : Bool :=
  beginsWith s.data pat.data

/-- Variant A `_normalize_state` (`back-end/mqtt_client.py` lines 51-60):
`None → None`; otherwise strip/lower, map a token starting with
`"interrompid"` to `"interrompida"`, the exact token `"livre"` to
`"livre"`, anything else to `None`. -/
def normalizeA : Option String → Option String
  | none => none
  | some raw =>
    if pyStartsWith (pyStripLower raw) "interrompid" then some "interrompida"
    else if pyStripLower raw = "livre" then some "livre"
    else none

/-- Variant B `_normalize_state` (`app/services/mqtt_client.py` lines 79-88):
`None → None`; otherwise strip/lower, map a token starting with
`"interrompid"` or `"interrupted"` to `"interrupted"`, the exact tokens
`"livre"` or `"clear"` to `"clear"`, anything else to `None`. -/
def normalizeB : Option String → Option String
  | none => none
  | some raw =>
    if pyStartsWith (pyStripLower raw) "interrompid"
        || pyStartsWith (pyStripLower raw) "interrupted" then some "interrupted"
    else if pyStripLower raw = "livre" || pyStripLower raw = "clear" then some "clear"
    else none

/-- The module-level detector state of either variant:
`_last_state`, `_last_transition_ms`, `_initialized`
(the spec's `lastState`, `lastTransitionAt`, `baselineEstablished`). -/
structure DetectorState where
  lastState : String
  lastTransitionMs : Nat
  baselineEstablished : Bool
deriving Repr, DecidableEq

/-- Startup values: `_last_state = "unknown"`, `_last_transition_ms = 0`,
`_initialized = False`. -/
def initialState : DetectorState := ⟨"unknown", 0, false⟩

/-- The payload shapes the handlers distinguish. -/
inductive Payload
  | empty
  | badJson
  | nonObject
  | object (state : Option String) (id : Option String)
deriving Repr, DecidableEq

/-- An inbound broker message: payload plus the broker retained flag. -/
structure Message where
  payload : Payload
  retained : Bool
deriving Repr, DecidableEq

/-- The canonical state variant A extracts from a message, if any:
`none` for every malformed shape and for an unrecognized `state` field. -/
def msgStateA (m : Message) : Option String :=
  match m.payload with
  | .object raw _ => normalizeA raw
  | _ => none

/-- The canonical state variant B extracts from a message, if any. -/
def msgStateB (m : Message) : Option String :=
  match m.payload with
  | .object raw _ => normalizeB raw
  | _ => none

/-- Result of one call of a message handler: the detector state afterwards,
and whether the persistence call (`handle_pizza_pass` /
`_handle_pizza_count`) was made, i.e. whether a CountEvent was produced. -/
structure StepResult where
  state : DetectorState
  countEmitted : Bool
deriving Repr, DecidableEq

/-- Variant A `on_message` (`back-end/mqtt_client.py` lines 62-117).
In order: drop a retained message once `_initialized`; drop an empty
payload; drop non-JSON (`json.JSONDecodeError`) and non-object payloads
(`data.get` raises, caught by the generic handler); drop a missing or
unrecognized `state`; on debounce rejection store the state and return;
otherwise detect the `interrompida → livre` edge, then store state, time
and the baseline flag. -/
def stepA (s : DetectorState) (m : Message) (nowMs : Nat) : StepResult :=
  if m.retained && s.baselineEstablished then ⟨s, false⟩
  else
    match m.payload with
    | .empty => ⟨s, false⟩
    | .badJson => ⟨s, false⟩
    | .nonObject => ⟨s, false⟩
    | .object rawState _ =>
      match normalizeA rawState with
      | none => ⟨s, false⟩
      | some st =>
        if s.lastTransitionMs ≠ 0 ∧ nowMs - s.lastTransitionMs < DEBOUNCE_MS then
          ⟨{ s with lastState := st }, false⟩
        else
          ⟨⟨st, nowMs, true⟩, s.lastState == "interrompida" && st == "livre"⟩

/-- Variant B `_on_message` (`app/services/mqtt_client.py` lines 90-136).
No retained check; drop empty, non-JSON, non-object and state-less
payloads; on debounce rejection keep the previous state entirely;
otherwise detect the `interrupted → clear` edge, then store state, time
and the baseline flag. -/
def stepB (s : DetectorState) (m : Message) (nowMs : Nat) : StepResult :=
  match m.payload with
  | .empty => ⟨s, false⟩
  | .badJson => ⟨s, false⟩
  | .nonObject => ⟨s, false⟩
  | .object rawState _ =>
    match normalizeB rawState with
    | none => ⟨s, false⟩
    | some st =>
      if s.lastTransitionMs ≠ 0 ∧ nowMs - s.lastTransitionMs < DEBOUNCE_MS then
        ⟨s, false⟩
      else
        ⟨⟨st, nowMs, true⟩, s.lastState == "interrupted" && st == "clear"⟩

/-- The sensor id a message carries, with the default of
`data.get("id", ...)` for a missing field (variant B spells the default
`"ESP32_Barrier_001"`). -/
def msgSensorId (m : Message) : String :=
  match m.payload with
  | .object _ (some i) => i
  | _ => "ESP32_Barrier_001"

/-- Possible outcomes of the database insert performed for a detected edge. -/
inductive PersistOutcome
  | ok
  | pgError
  | unexpectedError
deriving Repr, DecidableEq

/-- An observable report: `appLog` is a `logger.*` call, `dbLog` is a
`_log_system_event` insert into the `system_logs` table. -/
inductive LogEvent
  | appLog (level msg : String)
  | dbLog (level msg : String)
deriving Repr, DecidableEq

/-- Variant B `_handle_pizza_count` (`app/services/mqtt_client.py` lines
39-57): on success an INFO log plus an INFO system event; on a psycopg2
`Error` or on any other exception, the exception is caught inside the
function and an ERROR log plus an ERROR system event are emitted; the
function never re-raises. -/
def handlePizzaCount (sensorId : String) : PersistOutcome → List LogEvent
  | .ok =>
      [.appLog "INFO" ("Pizza count saved! Sensor ID: " ++ sensorId),
       .dbLog "INFO" ("Pizza counted from sensor: " ++ sensorId)]
  | .pgError =>
      [.appLog "ERROR" "PostgreSQL error while saving count",
       .dbLog "ERROR" "PostgreSQL error on save"]
  | .unexpectedError =>
      [.appLog "ERROR" "Unexpected error while saving count",
       .dbLog "ERROR" "Unexpected error on save"]

/-- Variant B `_on_message` together with the persistence call it makes:
since `_handle_pizza_count` swallows every exception, the handler's state
updates after the call run no matter how the insert went, so the detector
state is exactly `stepB`'s and only the emitted reports depend on the
persistence outcome. -/
def stepBWithPersist (s : DetectorState) (m : Message) (nowMs : Nat)
    (outcome : PersistOutcome) : DetectorState × List LogEvent :=
  let r := stepB s m nowMs
  (r.state, if r.countEmitted then handlePizzaCount (msgSensorId m) outcome else [])

/-- Variant A's `data.get("id", "ESP32_Barreira_001")`
(`back-end/mqtt_client.py` line 88). -/
def msgSensorIdA (m : Message) : String :=
  match m.payload with
  | .object _ (some i) => i
  | _ => "ESP32_Barreira_001"

/-- Outcomes of variant A's persistence attempt in `handle_pizza_pass`:
the DB connection factory may be unconfigured (the handler logs an error
and returns early), the insert may succeed, raise a psycopg2 `Error`, or
raise any other exception. -/
inductive PersistOutcomeA
  | notConfigured
  | ok
  | pgError
  | unexpectedError
deriving Repr, DecidableEq

/-- Variant A `handle_pizza_pass` (`back-end/mqtt_client.py` lines
122-143): with no DB connection factory it logs an error and returns; on
success it writes an INFO system event (`log_system_event`, best-effort,
modelled as succeeding) and an INFO log; on a psycopg2 `Error` or on any
other exception the exception is caught inside the function and an ERROR
log is emitted via `logger.error`; the function never re-raises. -/
def handlePizzaPass (sensorId : String) : PersistOutcomeA → List LogEvent
  | .notConfigured =>
      [.appLog "ERROR" "Função de conexão com o DB não configurada"]
  | .ok =>
      [.dbLog "INFO" "Pizza contabilizada via MQTT",
       .appLog "INFO" ("Pizza contabilizada! Sensor: " ++ sensorId)]
  | .pgError =>
      [.appLog "ERROR" "Erro ao salvar no PostgreSQL"]
  | .unexpectedError =>
      [.appLog "ERROR" "Erro inesperado ao salvar contagem"]

/-- Variant A `on_message` together with the persistence call it makes:
since `handle_pizza_pass` catches every exception inside itself, the
handler's state updates after the call run no matter how the insert went,
so the detector state is exactly `stepA`'s and only the emitted reports
depend on the persistence outcome. -/
def stepAWithPersist (s : DetectorState) (m : Message) (nowMs : Nat)
    (outcome : PersistOutcomeA) : DetectorState × List LogEvent :=
  let r := stepA s m nowMs
  (r.state, if r.countEmitted then handlePizzaPass (msgSensorIdA m) outcome else [])

/-- A message paired with the value `int(time.time() * 1000)` read while
handling it. -/
structure TimedMessage where
  msg : Message
  nowMs : Nat
deriving Repr, DecidableEq

/-- Process a list of timed messages with variant A's handler. -/
def runA : DetectorState → List TimedMessage → DetectorState
  | s, [] => s
  | s, tm :: rest => runA (stepA s tm.msg tm.nowMs).state rest

/-- Process a list of timed messages with variant B's handler. -/
def runB : DetectorState → List TimedMessage → DetectorState
  | s, [] => s
  | s, tm :: rest => runB (stepB s tm.msg tm.nowMs).state rest

/-- Total number of CountEvents produced by variant B on a message list. -/
def countsB : DetectorState → List TimedMessage → Nat
  | _, [] => 0
  | s, tm :: rest =>
    let r := stepB s tm.msg tm.nowMs
    (if r.countEmitted then 1 else 0) + countsB r.state rest

/-- The successive `_last_transition_ms` values along a variant A run. -/
def lastsA : DetectorState → List TimedMessage → List Nat
  | _, [] => []
  | s, tm :: rest =>
    let s' := (stepA s tm.msg tm.nowMs).state
    s'.lastTransitionMs :: lastsA s' rest

/-- The successive `_last_transition_ms` values along a variant B run. -/
def lastsB : DetectorState → List TimedMessage → List Nat
  | _, [] => []
  | s, tm :: rest =>
    let s' := (stepB s tm.msg tm.nowMs).state
    s'.lastTransitionMs :: lastsB s' rest

/-- The processing instants of the list are non-decreasing and bounded
below by `t0`. -/
def chrono : Nat → List TimedMessage → Bool
  | _, [] => true
  | t0, tm :: rest => decide (t0 ≤ tm.nowMs) && chrono tm.nowMs rest

/-- Reachability invariant of variant A: while `_initialized` is still
false, no accepting path has run, so `_last_state` and
`_last_transition_ms` still hold their startup values. -/
def reachInvA (s : DetectorState) : Prop :=
  s.baselineEstablished = false → s.lastState = "unknown" ∧ s.lastTransitionMs = 0

end PizzaDetector

namespace PizzaDetector

example : normalizeA (some "  Interrompida ") = some "interrompida" := by decide
example : normalizeA (some "livre") = some "livre" := by decide
example : normalizeA (some "interrupted") = none := by decide
example : normalizeB (some "Interrupted") = some "interrupted" := by decide
example : normalizeB (some "CLEAR") = some "clear" := by decide
example :
    stepA initialState ⟨.object (some "interrompida") none, false⟩ 1000 =
      ⟨⟨"interrompida", 1000, true⟩, false⟩ := by decide

/-- `stepA` written through `msgStateA`: the four drop shapes collapse. -/
lemma stepA_eq (s : DetectorState) (m : Message) (t : Nat) :
    stepA s m t =
      if m.retained && s.baselineEstablished then ⟨s, false⟩
      else
        match msgStateA m with
        | none => ⟨s, false⟩
        | some st =>
          if s.lastTransitionMs ≠ 0 ∧ t - s.lastTransitionMs < DEBOUNCE_MS then
            ⟨{ s with lastState := st }, false⟩
          else ⟨⟨st, t, true⟩, s.lastState == "interrompida" && st == "livre"⟩ := by
  obtain ⟨p, r⟩ := m
  cases p <;> rfl

/-- `stepB` written through `msgStateB`. -/
lemma stepB_eq (s : DetectorState) (m : Message) (t : Nat) :
    stepB s m t =
      match msgStateB m with
      | none => ⟨s, false⟩
      | some st =>
        if s.lastTransitionMs ≠ 0 ∧ t - s.lastTransitionMs < DEBOUNCE_MS then
          ⟨s, false⟩
        else ⟨⟨st, t, true⟩, s.lastState == "interrupted" && st == "clear"⟩ := by
  obtain ⟨p, r⟩ := m
  cases p <;> rfl

/-- One variant A step leaves `_last_transition_ms` alone or sets it to
the processing instant. -/
lemma stepA_last_cases (s : DetectorState) (m : Message) (t : Nat) :
    (stepA s m t).state.lastTransitionMs = s.lastTransitionMs ∨
      (stepA s m t).state.lastTransitionMs = t := by
  rw [stepA_eq]
  split
  · exact Or.inl rfl
  · split
    · exact Or.inl rfl
    · split
      · exact Or.inl rfl
      · exact Or.inr rfl

/-- One variant B step leaves `_last_transition_ms` alone or sets it to
the processing instant. -/
lemma stepB_last_cases (s : DetectorState) (m : Message) (t : Nat) :
    (stepB s m t).state.lastTransitionMs = s.lastTransitionMs ∨
      (stepB s m t).state.lastTransitionMs = t := by
  rw [stepB_eq]
  split
  · exact Or.inl rfl
  · split
    · exact Or.inl rfl
    · exact Or.inr rfl

/-- A CountEvent in variant A forces the stored state to be
`"interrompida"` and the incoming normalized state to be `"livre"`. -/
lemma stepA_count_imp (s : DetectorState) (m : Message) (t : Nat)
    (h : (stepA s m t).countEmitted = true) :
    s.lastState = "interrompida" ∧ msgStateA m = some "livre" := by
  rw [stepA_eq] at h
  split at h
  · simp at h
  · split at h
    · simp at h
    · rename_i st hm
      split at h
      · simp at h
      · simp only [Bool.and_eq_true, beq_iff_eq] at h
        exact ⟨h.1, hm ▸ congrArg some h.2⟩

/-- A CountEvent in variant B forces the stored state to be
`"interrupted"` and the incoming normalized state to be `"clear"`. -/
lemma stepB_count_imp (s : DetectorState) (m : Message) (t : Nat)
    (h : (stepB s m t).countEmitted = true) :
    s.lastState = "interrupted" ∧ msgStateB m = some "clear" := by
  rw [stepB_eq] at h
  split at h
  · simp at h
  · rename_i st hm
    split at h
    · simp at h
    · simp only [Bool.and_eq_true, beq_iff_eq] at h
      exact ⟨h.1, hm ▸ congrArg some h.2⟩

/-- In variant A, a message that reaches the debounce stage (it is not
dropped by the retained guard and carries a recognized state) always
stores its normalized state, whether or not debounce rejects it. -/
lemma stepA_engaged_lastState (s : DetectorState) (m : Message) (t : Nat)
    (st : String)
    (hr : ¬(m.retained = true ∧ s.baselineEstablished = true))
    (hm : msgStateA m = some st) :
    (stepA s m t).state.lastState = st := by
  rw [stepA_eq, if_neg (by rw [Bool.and_eq_true]; exact hr), hm]
  split <;> rename_i heq
  · exact Option.noConfusion heq
  · rename_i st'
    injection heq with h
    subst h
    split <;> rfl

/-- A lower bound on a chronological trace can be weakened. -/
lemma chrono_mono {a b : Nat} (hab : a ≤ b) :
    ∀ {l : List TimedMessage}, chrono b l = true → chrono a l = true
  | [], h => h
  | tm :: rest, h => by
    rw [chrono, Bool.and_eq_true, decide_eq_true_eq] at h ⊢
    exact ⟨le_trans hab h.1, h.2⟩

/-- `stepA` on a message carrying a recognized state. -/
lemma stepA_some {m : Message} {st : String} (s : DetectorState) (t : Nat)
    (hm : msgStateA m = some st) :
    stepA s m t =
      if m.retained && s.baselineEstablished then ⟨s, false⟩
      else if s.lastTransitionMs ≠ 0 ∧ t - s.lastTransitionMs < DEBOUNCE_MS then
        ⟨{ s with lastState := st }, false⟩
      else ⟨⟨st, t, true⟩, s.lastState == "interrompida" && st == "livre"⟩ := by
  rw [stepA_eq, hm]

/-- `stepB` on a message carrying a recognized state. -/
lemma stepB_some {m : Message} {st : String} (s : DetectorState) (t : Nat)
    (hm : msgStateB m = some st) :
    stepB s m t =
      if s.lastTransitionMs ≠ 0 ∧ t - s.lastTransitionMs < DEBOUNCE_MS then
        ⟨s, false⟩
      else ⟨⟨st, t, true⟩, s.lastState == "interrupted" && st == "clear"⟩ := by
  rw [stepB_eq, hm]

/-- `stepA` drops a message with no recognized state without any mutation. -/
lemma stepA_none {m : Message} (s : DetectorState) (t : Nat)
    (hm : msgStateA m = none) : stepA s m t = ⟨s, false⟩ := by
  rw [stepA_eq, hm]
  split <;> rfl

/-- `stepB` drops a message with no recognized state without any mutation. -/
lemma stepB_none {m : Message} (s : DetectorState) (t : Nat)
    (hm : msgStateB m = none) : stepB s m t = ⟨s, false⟩ := by
  rw [stepB_eq, hm]

/-- A variant A step keeps `_last_transition_ms` between its old value and
the processing instant. -/
lemma stepA_last_le {s : DetectorState} {t : Nat} (m : Message)
    (h : s.lastTransitionMs ≤ t) :
    s.lastTransitionMs ≤ (stepA s m t).state.lastTransitionMs ∧
      (stepA s m t).state.lastTransitionMs ≤ t := by
  rcases stepA_last_cases s m t with h' | h'
  · rw [h']; exact ⟨le_refl _, h⟩
  · rw [h']; exact ⟨h, le_refl _⟩

/-- A variant B step keeps `_last_transition_ms` between its old value and
the processing instant. -/
lemma stepB_last_le {s : DetectorState} {t : Nat} (m : Message)
    (h : s.lastTransitionMs ≤ t) :
    s.lastTransitionMs ≤ (stepB s m t).state.lastTransitionMs ∧
      (stepB s m t).state.lastTransitionMs ≤ t := by
  rcases stepB_last_cases s m t with h' | h'
  · rw [h']; exact ⟨le_refl _, h⟩
  · rw [h']; exact ⟨h, le_refl _⟩

/-- Along a chronological variant A run, the successive
`_last_transition_ms` values never decrease. -/
lemma lastsA_chain (s : DetectorState) (msgs : List TimedMessage)
    (h : chrono s.lastTransitionMs msgs = true) :
    List.Chain (· ≤ ·) s.lastTransitionMs (lastsA s msgs) := by
  induction msgs generalizing s with
  | nil => exact List.Chain.nil
  | cons tm rest ih =>
    rw [chrono, Bool.and_eq_true, decide_eq_true_eq] at h
    simp only [lastsA]
    exact List.Chain.cons (stepA_last_le tm.msg h.1).1
      (ih _ (chrono_mono (stepA_last_le tm.msg h.1).2 h.2))

/-- Along a chronological variant B run, the successive
`_last_transition_ms` values never decrease. -/
lemma lastsB_chain (s : DetectorState) (msgs : List TimedMessage)
    (h : chrono s.lastTransitionMs msgs = true) :
    List.Chain (· ≤ ·) s.lastTransitionMs (lastsB s msgs) := by
  induction msgs generalizing s with
  | nil => exact List.Chain.nil
  | cons tm rest ih =>
    rw [chrono, Bool.and_eq_true, decide_eq_true_eq] at h
    simp only [lastsB]
    exact List.Chain.cons (stepB_last_le tm.msg h.1).1
      (ih _ (chrono_mono (stepB_last_le tm.msg h.1).2 h.2))

/-- C7: every malformed inbound message — empty payload, payload that is
not valid JSON, JSON whose top level is not an object, or an object whose
`state` field is missing or normalizes to Unknown — is dropped by both
handlers with no mutation of `_last_state`, `_last_transition_ms` or
`_initialized`, and no CountEvent. -/
theorem C7_malformed_drop (s : DetectorState) (t : Nat) (r : Bool) :
    stepA s ⟨.empty, r⟩ t = ⟨s, false⟩ ∧
    stepA s ⟨.badJson, r⟩ t = ⟨s, false⟩ ∧
    stepA s ⟨.nonObject, r⟩ t = ⟨s, false⟩ ∧
    (∀ raw i, normalizeA raw = none → stepA s ⟨.object raw i, r⟩ t = ⟨s, false⟩) ∧
    stepB s ⟨.empty, r⟩ t = ⟨s, false⟩ ∧
    stepB s ⟨.badJson, r⟩ t = ⟨s, false⟩ ∧
    stepB s ⟨.nonObject, r⟩ t = ⟨s, false⟩ ∧
    (∀ raw i, normalizeB raw = none → stepB s ⟨.object raw i, r⟩ t = ⟨s, false⟩) :=
  ⟨stepA_none s t rfl, stepA_none s t rfl, stepA_none s t rfl,
   fun _ _ h => stepA_none s t h,
   stepB_none s t rfl, stepB_none s t rfl, stepB_none s t rfl,
   fun _ _ h => stepB_none s t h⟩

/-- C7 witness: a JSON object with the unrecognized state `"weird"` is
dropped by both handlers from the startup state. -/
theorem C7_malformed_drop_witness :
    stepA initialState ⟨.object (some "weird") none, false⟩ 5 =
      ⟨initialState, false⟩ ∧
    stepB initialState ⟨.object (some "weird") none, false⟩ 5 =
      ⟨initialState, false⟩ :=
  ⟨(C7_malformed_drop initialState 5 false).2.2.2.1 (some "weird") none (by decide),
   (C7_malformed_drop initialState 5 false).2.2.2.2.2.2.2 (some "weird") none (by decide)⟩

/-- C9: for every chronological message sequence (processing instants
non-decreasing and not below the stored `_last_transition_ms`, which at
startup is 0), the successive `_last_transition_ms` values of both
handlers form a non-decreasing chain from the starting value. -/
theorem C9_lastTransition_monotone (s : DetectorState)
    (msgs : List TimedMessage) (h : chrono s.lastTransitionMs msgs = true) :
    List.Chain (· ≤ ·) s.lastTransitionMs (lastsA s msgs) ∧
    List.Chain (· ≤ ·) s.lastTransitionMs (lastsB s msgs) :=
  ⟨lastsA_chain s msgs h, lastsB_chain s msgs h⟩

/-- C9 witness: a concrete chronological run from startup. -/
theorem C9_lastTransition_monotone_witness :
    List.Chain (· ≤ ·) initialState.lastTransitionMs
      (lastsA initialState
        [⟨⟨.object (some "interrompida") none, false⟩, 1000⟩,
         ⟨⟨.object (some "livre") none, false⟩, 1050⟩,
         ⟨⟨.object (some "livre") none, false⟩, 1200⟩]) ∧
    List.Chain (· ≤ ·) initialState.lastTransitionMs
      (lastsB initialState
        [⟨⟨.object (some "interrompida") none, false⟩, 1000⟩,
         ⟨⟨.object (some "livre") none, false⟩, 1050⟩,
         ⟨⟨.object (some "livre") none, false⟩, 1200⟩]) :=
  C9_lastTransition_monotone initialState
    [⟨⟨.object (some "interrompida") none, false⟩, 1000⟩,
     ⟨⟨.object (some "livre") none, false⟩, 1050⟩,
     ⟨⟨.object (some "livre") none, false⟩, 1200⟩] (by decide)

/-- C10: the debounce test `if _last_transition_ms and ...` first checks
`_last_transition_ms` for being non-zero, so while it still holds its
startup value 0 the gate never rejects: a message carrying a recognized
state that is not dropped by the retained guard is processed by the full
accept path — edge detection runs and state, instant and baseline flag
are stored — whatever its arrival time. -/
theorem C10_no_debounce_at_zero (s : DetectorState) (m : Message) (t : Nat)
    (st : String) (h0 : s.lastTransitionMs = 0) :
    (msgStateA m = some st →
      ¬(m.retained = true ∧ s.baselineEstablished = true) →
      stepA s m t =
        ⟨⟨st, t, true⟩, s.lastState == "interrompida" && st == "livre"⟩) ∧
    (msgStateB m = some st →
      stepB s m t =
        ⟨⟨st, t, true⟩, s.lastState == "interrupted" && st == "clear"⟩) := by
  constructor
  · intro hm hr
    rw [stepA_some s t hm, if_neg (by rw [Bool.and_eq_true]; exact hr),
      if_neg (by simp [h0])]
  · intro hm
    rw [stepB_some s t hm, if_neg (by simp [h0])]

/-- C10 witness: with `_last_transition_ms = 0`, a message arriving at
instant 3 reaches edge detection in both variants and even scores a count
there. -/
theorem C10_no_debounce_at_zero_witness :
    stepA ⟨"interrompida", 0, false⟩ ⟨.object (some "livre") none, false⟩ 3 =
      ⟨⟨"livre", 3, true⟩, true⟩ ∧
    stepB ⟨"interrupted", 0, false⟩ ⟨.object (some "clear") none, false⟩ 3 =
      ⟨⟨"clear", 3, true⟩, true⟩ := by
  constructor
  · have h := (C10_no_debounce_at_zero ⟨"interrompida", 0, false⟩
      ⟨.object (some "livre") none, false⟩ 3 "livre" rfl).1 (by decide) (by decide)
    rw [h]; decide
  · have h := (C10_no_debounce_at_zero ⟨"interrupted", 0, false⟩
      ⟨.object (some "clear") none, false⟩ 3 "clear" rfl).2 (by decide)
    rw [h]; decide

/-- C8: on a detected Interrupted-to-Clear edge, each handler's detector
state advances to `⟨Clear-token, now, true⟩` for every persistence
outcome — both `handle_pizza_pass` and `_handle_pizza_count` swallow
their exceptions internally, so there is no rollback or re-queue — and
when the insert fails an ERROR report is emitted rather than silently
dropped: through `logger.error` in the top-level handler, and through an
ERROR `_log_system_event` record in the app/services handler. -/
theorem C8_persistence_failure (s : DetectorState) (m : Message) (t : Nat)
    (hd : ¬(s.lastTransitionMs ≠ 0 ∧ t - s.lastTransitionMs < DEBOUNCE_MS)) :
    (∀ (outcome : PersistOutcomeA), s.lastState = "interrompida" →
      msgStateA m = some "livre" →
      ¬(m.retained = true ∧ s.baselineEstablished = true) →
      (stepA s m t).countEmitted = true ∧
      (stepAWithPersist s m t outcome).1 = ⟨"livre", t, true⟩ ∧
      (outcome ≠ PersistOutcomeA.ok →
        ∃ msg, LogEvent.appLog "ERROR" msg ∈ (stepAWithPersist s m t outcome).2)) ∧
    (∀ (outcome : PersistOutcome), s.lastState = "interrupted" →
      msgStateB m = some "clear" →
      (stepB s m t).countEmitted = true ∧
      (stepBWithPersist s m t outcome).1 = ⟨"clear", t, true⟩ ∧
      (outcome ≠ PersistOutcome.ok →
        ∃ msg, LogEvent.dbLog "ERROR" msg ∈ (stepBWithPersist s m t outcome).2)) := by
  constructor
  · intro outcome hs hm hr
    have hstep : stepA s m t = ⟨⟨"livre", t, true⟩, true⟩ := by
      rw [stepA_some s t hm, if_neg (by rw [Bool.and_eq_true]; exact hr),
        if_neg hd]
      simp [hs]
    refine ⟨by rw [hstep], by simp [stepAWithPersist, hstep], ?_⟩
    intro hout
    cases outcome with
    | ok => exact absurd rfl hout
    | notConfigured =>
      exact ⟨"Função de conexão com o DB não configurada",
        by simp [stepAWithPersist, hstep, handlePizzaPass]⟩
    | pgError =>
      exact ⟨"Erro ao salvar no PostgreSQL",
        by simp [stepAWithPersist, hstep, handlePizzaPass]⟩
    | unexpectedError =>
      exact ⟨"Erro inesperado ao salvar contagem",
        by simp [stepAWithPersist, hstep, handlePizzaPass]⟩
  · intro outcome hs hm
    have hstep : stepB s m t = ⟨⟨"clear", t, true⟩, true⟩ := by
      rw [stepB_some s t hm, if_neg hd]
      simp [hs]
    refine ⟨by rw [hstep], by simp [stepBWithPersist, hstep], ?_⟩
    intro hout
    cases outcome with
    | ok => exact absurd rfl hout
    | pgError =>
      exact ⟨"PostgreSQL error on save",
        by simp [stepBWithPersist, hstep, handlePizzaCount]⟩
    | unexpectedError =>
      exact ⟨"Unexpected error on save",
        by simp [stepBWithPersist, hstep, handlePizzaCount]⟩

/-- C8 witness: a concrete edge whose insert hits a PostgreSQL error
still advances the state in both handlers, and an ERROR report is
emitted by each. -/
theorem C8_persistence_failure_witness :
    ((stepA ⟨"interrompida", 1000, true⟩ ⟨.object (some "livre") none, false⟩
        2000).countEmitted = true ∧
      (stepAWithPersist ⟨"interrompida", 1000, true⟩
          ⟨.object (some "livre") none, false⟩ 2000 PersistOutcomeA.pgError).1 =
        ⟨"livre", 2000, true⟩ ∧
      (PersistOutcomeA.pgError ≠ PersistOutcomeA.ok →
        ∃ msg, LogEvent.appLog "ERROR" msg ∈
          (stepAWithPersist ⟨"interrompida", 1000, true⟩
            ⟨.object (some "livre") none, false⟩ 2000
            PersistOutcomeA.pgError).2)) ∧
    ((stepB ⟨"interrupted", 1000, true⟩ ⟨.object (some "livre") none, false⟩
        2000).countEmitted = true ∧
      (stepBWithPersist ⟨"interrupted", 1000, true⟩
          ⟨.object (some "livre") none, false⟩ 2000 PersistOutcome.pgError).1 =
        ⟨"clear", 2000, true⟩ ∧
      (PersistOutcome.pgError ≠ PersistOutcome.ok →
        ∃ msg, LogEvent.dbLog "ERROR" msg ∈
          (stepBWithPersist ⟨"interrupted", 1000, true⟩
            ⟨.object (some "livre") none, false⟩ 2000
            PersistOutcome.pgError).2)) :=
  ⟨(C8_persistence_failure ⟨"interrompida", 1000, true⟩
      ⟨.object (some "livre") none, false⟩ 2000 (by decide)).1
      PersistOutcomeA.pgError rfl (by decide) (by decide),
   (C8_persistence_failure ⟨"interrupted", 1000, true⟩
      ⟨.object (some "livre") none, false⟩ 2000 (by decide)).2
      PersistOutcome.pgError rfl (by decide)⟩

/-- C1 counterexample: in the app/services variant a debounce-rejected
`Clear` keeps `_last_state = "interrupted"`, so the run
`interrompida@1000, livre@1050, livre@1200` from startup produces a
CountEvent on the third message even though the second and third messages
are consecutive and both normalize to Clear. -/
theorem C1_counterexample :
    (stepB initialState ⟨.object (some "interrompida") none, false⟩ 1000).state
      = ⟨"interrupted", 1000, true⟩ ∧
    stepB ⟨"interrupted", 1000, true⟩ ⟨.object (some "livre") none, false⟩ 1050
      = ⟨⟨"interrupted", 1000, true⟩, false⟩ ∧
    msgStateB ⟨.object (some "livre") none, false⟩ = some "clear" ∧
    (stepB ⟨"interrupted", 1000, true⟩ ⟨.object (some "livre") none, false⟩
        1200).countEmitted = true := by decide

/-- C1 amended: in both variants a CountEvent is constructed only when the
stored `_last_state` is the Interrupted token and the incoming normalized
state is the Clear token — hence never while `_last_state` is still
`"unknown"`, and never from a message normalizing to Interrupted. In the
top-level variant two consecutive messages that reach the debounce stage
with the same normalized state can never score on the second one; in the
app/services variant this fails for Clear after a debounce-rejected Clear
(see the counterexample). -/
theorem C1_count_guard (s : DetectorState) (m : Message) (t : Nat) :
    ((stepA s m t).countEmitted = true →
      s.lastState = "interrompida" ∧ msgStateA m = some "livre") ∧
    ((stepB s m t).countEmitted = true →
      s.lastState = "interrupted" ∧ msgStateB m = some "clear") ∧
    (s.lastState = "unknown" →
      (stepA s m t).countEmitted = false ∧ (stepB s m t).countEmitted = false) ∧
    (msgStateB m = some "interrupted" → (stepB s m t).countEmitted = false) ∧
    (∀ (m' : Message) (t' : Nat) (σ : String),
      ¬(m.retained = true ∧ s.baselineEstablished = true) →
      msgStateA m = some σ → msgStateA m' = some σ →
      (stepA (stepA s m t).state m' t').countEmitted = false) := by
  refine ⟨stepA_count_imp s m t, stepB_count_imp s m t, ?_, ?_, ?_⟩
  · intro hu
    constructor
    · by_contra hc
      rw [Bool.not_eq_false] at hc
      have h1 := (stepA_count_imp s m t hc).1
      rw [hu] at h1
      exact absurd h1 (by decide)
    · by_contra hc
      rw [Bool.not_eq_false] at hc
      have h1 := (stepB_count_imp s m t hc).1
      rw [hu] at h1
      exact absurd h1 (by decide)
  · intro hm
    by_contra hc
    rw [Bool.not_eq_false] at hc
    have h2 := (stepB_count_imp s m t hc).2
    rw [hm] at h2
    injection h2 with h2
    exact absurd h2 (by decide)
  · intro m' t' σ hr hm hm'
    by_contra hc
    rw [Bool.not_eq_false] at hc
    obtain ⟨h1, h2⟩ := stepA_count_imp _ m' t' hc
    rw [stepA_engaged_lastState s m t σ hr hm] at h1
    rw [hm'] at h2
    injection h2 with h2
    rw [h1] at h2
    exact absurd h2 (by decide)

/-- C1 witness: the guard instantiated on a concrete scoring step, and the
consecutive-same-state fact on a concrete pair. -/
theorem C1_count_guard_witness :
    ((⟨"interrompida", 0, false⟩ : DetectorState).lastState = "interrompida" ∧
      msgStateA ⟨.object (some "livre") none, false⟩ = some "livre") ∧
    (stepA (stepA initialState ⟨.object (some "livre") none, false⟩ 1000).state
        ⟨.object (some "Livre ") none, false⟩ 1200).countEmitted = false :=
  ⟨(C1_count_guard ⟨"interrompida", 0, false⟩
      ⟨.object (some "livre") none, false⟩ 7).1 (by decide),
   (C1_count_guard initialState ⟨.object (some "livre") none, false⟩
      1000).2.2.2.2 ⟨.object (some "Livre ") none, false⟩ 1200 "livre"
      (by decide) (by decide) (by decide)⟩

/-- C2 counterexample: the app/services handler never reads the broker
retained flag. From the reachable state left by a live `interrompida` at
1000 ms, a retained `livre` at 2000 ms — the first message after a
reconnect — produces a CountEvent and mutates the state, and a later
retained message is likewise not dropped. -/
theorem C2_counterexample :
    (stepB initialState ⟨.object (some "interrompida") none, false⟩ 1000).state
      = ⟨"interrupted", 1000, true⟩ ∧
    stepB ⟨"interrupted", 1000, true⟩ ⟨.object (some "livre") none, true⟩ 2000
      = ⟨⟨"clear", 2000, true⟩, true⟩ := by decide

/-- C2 amended: only the top-level variant has the retained guard. There,
a retained message processed from any reachable detector state never
produces a CountEvent (while the baseline is not yet established the
reachable `_last_state` is still `"unknown"`, so the edge cannot fire),
and once `_initialized` is true every retained message is dropped whole,
changing neither `_last_state` nor `_last_transition_ms`. The
app/services variant ignores the flag entirely (see the counterexample).
The invariant `reachInvA` holds at startup and is preserved by every
step, so it captures exactly the reachable states. -/
theorem C2_retained_guard (s : DetectorState) (m : Message) (t : Nat) :
    (reachInvA s → m.retained = true → (stepA s m t).countEmitted = false) ∧
    (s.baselineEstablished = true → m.retained = true →
      stepA s m t = ⟨s, false⟩) ∧
    reachInvA initialState ∧
    (reachInvA s → reachInvA (stepA s m t).state) := by
  refine ⟨?_, ?_, fun _ => ⟨rfl, rfl⟩, ?_⟩
  · intro hinv hret
    cases hb : s.baselineEstablished with
    | true =>
      have hdrop : stepA s m t = ⟨s, false⟩ := by
        rw [stepA_eq, if_pos (by rw [hret, hb]; rfl)]
      rw [hdrop]
    | false =>
      by_contra hc
      rw [Bool.not_eq_false] at hc
      have h1 := (stepA_count_imp s m t hc).1
      rw [(hinv hb).1] at h1
      exact absurd h1 (by decide)
  · intro hb hret
    rw [stepA_eq, if_pos (by rw [hret, hb]; rfl)]
  · intro hinv
    rw [stepA_eq]
    split
    · exact hinv
    · split
      · exact hinv
      · split
        · rename_i hcond
          intro hb
          exact absurd (hinv hb).2 hcond.1
        · intro hb
          exact Bool.noConfusion hb

/-- C2 witness: from the established state left by a live `interrompida`,
a retained `livre` is dropped whole by the top-level handler and scores
nothing. -/
theorem C2_retained_guard_witness :
    (stepA ⟨"interrompida", 1000, true⟩ ⟨.object (some "livre") none, true⟩
        2000).countEmitted = false ∧
    stepA ⟨"interrompida", 1000, true⟩ ⟨.object (some "livre") none, true⟩ 2000
      = ⟨⟨"interrompida", 1000, true⟩, false⟩ :=
  ⟨(C2_retained_guard ⟨"interrompida", 1000, true⟩
      ⟨.object (some "livre") none, true⟩ 2000).1 (fun h => Bool.noConfusion h)
      rfl,
   (C2_retained_guard ⟨"interrompida", 1000, true⟩
      ⟨.object (some "livre") none, true⟩ 2000).2.1 rfl rfl⟩

/-- C3 counterexample: in the app/services variant a debounce-rejected
message does not store its state. From the reachable state left by
`interrompida` at 1000 ms, a `livre` message at 1050 ms is rejected and
`_last_state` stays `"interrupted"` instead of becoming the message's
`"clear"`. -/
theorem C3_counterexample :
    (stepB initialState ⟨.object (some "interrompida") none, false⟩ 1000).state
      = ⟨"interrupted", 1000, true⟩ ∧
    msgStateB ⟨.object (some "livre") none, false⟩ = some "clear" ∧
    stepB ⟨"interrupted", 1000, true⟩ ⟨.object (some "livre") none, false⟩ 1050
      = ⟨⟨"interrupted", 1000, true⟩, false⟩ ∧
    ("interrupted" : String) ≠ "clear" := by decide

/-- C3 amended: on a debounce rejection (stored instant non-zero, arrival
within 100 ms of it) neither variant runs edge detection or produces a
CountEvent, and neither touches `_last_transition_ms` or `_initialized`;
the top-level variant stores the incoming state as the new `_last_state`,
while the app/services variant leaves the whole state unchanged. -/
theorem C3_debounce_rejection (s : DetectorState) (m : Message) (t : Nat)
    (st : String) (h0 : s.lastTransitionMs ≠ 0)
    (hfast : t - s.lastTransitionMs < DEBOUNCE_MS) :
    (msgStateA m = some st →
      ¬(m.retained = true ∧ s.baselineEstablished = true) →
      stepA s m t = ⟨{ s with lastState := st }, false⟩) ∧
    (msgStateB m = some st → stepB s m t = ⟨s, false⟩) := by
  constructor
  · intro hm hr
    rw [stepA_some s t hm, if_neg (by rw [Bool.and_eq_true]; exact hr),
      if_pos ⟨h0, hfast⟩]
  · intro hm
    rw [stepB_some s t hm, if_pos ⟨h0, hfast⟩]

/-- C3 witness: a `livre` 50 ms after the stored instant is rejected by
both variants; the top-level variant still stores `"livre"`. -/
theorem C3_debounce_rejection_witness :
    stepA ⟨"interrompida", 1000, true⟩ ⟨.object (some "livre") none, false⟩ 1050
      = ⟨⟨"livre", 1000, true⟩, false⟩ ∧
    stepB ⟨"interrupted", 1000, true⟩ ⟨.object (some "livre") none, false⟩ 1050
      = ⟨⟨"interrupted", 1000, true⟩, false⟩ :=
  ⟨(C3_debounce_rejection ⟨"interrompida", 1000, true⟩
      ⟨.object (some "livre") none, false⟩ 1050 "livre" (by decide)
      (by decide)).1 (by decide) (by decide),
   (C3_debounce_rejection ⟨"interrupted", 1000, true⟩
      ⟨.object (some "livre") none, false⟩ 1050 "clear" (by decide)
      (by decide)).2 (by decide)⟩

/-- C4 counterexample: replaying a non-retained `livre` while
`_last_state` is already the Clear token scores nothing, but once the
replay passes the debounce window `_last_transition_ms` IS updated: from
the reachable state `⟨"clear", 1000, true⟩`, the replay at 2000 ms moves
it to 2000. -/
theorem C4_counterexample :
    (stepB initialState ⟨.object (some "livre") none, false⟩ 1000).state
      = ⟨"clear", 1000, true⟩ ∧
    stepB ⟨"clear", 1000, true⟩ ⟨.object (some "livre") none, false⟩ 2000
      = ⟨⟨"clear", 2000, true⟩, false⟩ ∧
    (2000 : Nat) ≠ 1000 := by decide

/-- C4 amended: replaying a non-retained Clear message while `_last_state`
is already the Clear token produces no CountEvent and keeps `_last_state`
at Clear in both variants, but `_last_transition_ms` is unchanged only
when the replay falls inside the debounce window; a replay that passes
the gate stores its own arrival instant. -/
theorem C4_replay_clear (s : DetectorState) (m : Message) (t : Nat) :
    (s.lastState = "livre" → m.retained = false → msgStateA m = some "livre" →
      (stepA s m t).countEmitted = false ∧
      (stepA s m t).state.lastState = "livre" ∧
      (stepA s m t).state.lastTransitionMs =
        (if s.lastTransitionMs ≠ 0 ∧ t - s.lastTransitionMs < DEBOUNCE_MS
          then s.lastTransitionMs else t)) ∧
    (s.lastState = "clear" → msgStateB m = some "clear" →
      (stepB s m t).countEmitted = false ∧
      (stepB s m t).state.lastState = "clear" ∧
      (stepB s m t).state.lastTransitionMs =
        (if s.lastTransitionMs ≠ 0 ∧ t - s.lastTransitionMs < DEBOUNCE_MS
          then s.lastTransitionMs else t)) := by
  constructor
  · intro hs hret hm
    rw [stepA_some s t hm, if_neg (by rw [Bool.and_eq_true, hret]; rintro ⟨h, -⟩; exact Bool.noConfusion h)]
    split_ifs with hdeb
    · exact ⟨rfl, rfl, rfl⟩
    · exact ⟨by simp [hs], rfl, rfl⟩
  · intro hs hm
    rw [stepB_some s t hm]
    split_ifs with hdeb
    · exact ⟨rfl, hs, rfl⟩
    · exact ⟨by simp [hs], rfl, rfl⟩

/-- C4 witness: the Clear replay at 2000 ms in both variants. -/
theorem C4_replay_clear_witness :
    ((stepA ⟨"livre", 1000, true⟩ ⟨.object (some "livre") none, false⟩
        2000).countEmitted = false ∧
      (stepA ⟨"livre", 1000, true⟩ ⟨.object (some "livre") none, false⟩
        2000).state.lastState = "livre" ∧
      (stepA ⟨"livre", 1000, true⟩ ⟨.object (some "livre") none, false⟩
        2000).state.lastTransitionMs =
        (if (1000 : Nat) ≠ 0 ∧ 2000 - 1000 < DEBOUNCE_MS then 1000 else 2000)) ∧
    ((stepB ⟨"clear", 1000, true⟩ ⟨.object (some "livre") none, false⟩
        2000).countEmitted = false ∧
      (stepB ⟨"clear", 1000, true⟩ ⟨.object (some "livre") none, false⟩
        2000).state.lastState = "clear" ∧
      (stepB ⟨"clear", 1000, true⟩ ⟨.object (some "livre") none, false⟩
        2000).state.lastTransitionMs =
        (if (1000 : Nat) ≠ 0 ∧ 2000 - 1000 < DEBOUNCE_MS then 1000 else 2000)) :=
  ⟨(C4_replay_clear ⟨"livre", 1000, true⟩
      ⟨.object (some "livre") none, false⟩ 2000).1 rfl rfl (by decide),
   (C4_replay_clear ⟨"clear", 1000, true⟩
      ⟨.object (some "livre") none, false⟩ 2000).2 rfl (by decide)⟩

/-- C5 counterexample: the top-level variant recognizes no English
spelling at all: the token `"interrupted"` trims/lowers to itself and
begins with the English token `"interrupted"` recognized by the other
variant, yet `normalizeA` maps it to `None` (Unknown), not Interrupted. -/
theorem C5_counterexample :
    pyStartsWith (pyStripLower "interrupted") "interrupted" = true ∧
    normalizeA (some "interrupted") = none ∧
    normalizeB (some "interrupted") = some "interrupted" := by decide

/-- C5 amended: both normalizers are total on string-or-null input and
null maps to Unknown in both. The app/services variant behaves as the
claim states: after trimming and lowering, a token beginning with the
English spelling `"interrupted"` or the Portuguese spelling
`"interrompid"` maps to Interrupted, a token exactly equal to `"livre"`
or `"clear"` maps to Clear, and everything else maps to Unknown. The
top-level variant recognizes only the Portuguese spellings: the single
Interrupted token-start `"interrompid"` and the single Clear token
`"livre"`; in particular English input maps to Unknown there. -/
theorem C5_normalize_total (raw : String) :
    (normalizeA none = none ∧ normalizeB none = none) ∧
    (pyStartsWith (pyStripLower raw) "interrompid" = true →
      normalizeA (some raw) = some "interrompida") ∧
    (pyStripLower raw = "livre" → normalizeA (some raw) = some "livre") ∧
    (pyStartsWith (pyStripLower raw) "interrompid" = false →
      pyStripLower raw ≠ "livre" → normalizeA (some raw) = none) ∧
    (pyStartsWith (pyStripLower raw) "interrompid" = true ∨
        pyStartsWith (pyStripLower raw) "interrupted" = true →
      normalizeB (some raw) = some "interrupted") ∧
    (pyStripLower raw = "livre" ∨ pyStripLower raw = "clear" →
      normalizeB (some raw) = some "clear") ∧
    (pyStartsWith (pyStripLower raw) "interrompid" = false →
      pyStartsWith (pyStripLower raw) "interrupted" = false →
      pyStripLower raw ≠ "livre" → pyStripLower raw ≠ "clear" →
      normalizeB (some raw) = none) := by
  refine ⟨⟨rfl, rfl⟩, ?_, ?_, ?_, ?_, ?_, ?_⟩
  · intro h
    simp [normalizeA, h]
  · intro h
    simp only [normalizeA, h]
    decide
  · intro h1 h2
    simp [normalizeA, h1, h2]
  · intro h
    rcases h with h | h <;> simp [normalizeB, h]
  · intro h
    rcases h with h | h <;> simp only [normalizeB, h] <;> decide
  · intro h1 h2 h3 h4
    simp [normalizeB, h1, h2, h3, h4]

/-- C5 witness: the characterization instantiated on concrete tokens of
all three classes. -/
theorem C5_normalize_total_witness :
    normalizeA (some " INTERROMPIDO ") = some "interrompida" ∧
    normalizeA (some "Livre") = some "livre" ∧
    normalizeA (some "clear") = none ∧
    normalizeB (some "Interrupted!") = some "interrupted" ∧
    normalizeB (some "  CLEAR ") = some "clear" ∧
    normalizeB (some "???") = none :=
  ⟨(C5_normalize_total " INTERROMPIDO ").2.1 (by decide),
   (C5_normalize_total "Livre").2.2.1 (by decide),
   (C5_normalize_total "clear").2.2.2.1 (by decide) (by decide),
   (C5_normalize_total "Interrupted!").2.2.2.2.1 (Or.inr (by decide)),
   (C5_normalize_total "  CLEAR ").2.2.2.2.2.1 (Or.inr (by decide)),
   (C5_normalize_total "???").2.2.2.2.2.2 (by decide) (by decide) (by decide)
     (by decide)⟩

/-- C6 counterexample: the top-level handler processes the very first
retained message through the full pipeline: from startup, a retained
`interrompida` at 1000 ms sets `_last_transition_ms` to 1000 (not leaving
it at 0), so the genuinely fast live `livre` at 1050 ms is
debounce-rejected and its edge is lost — had the instant been left at 0
the same live message would have scored the count. -/
theorem C6_counterexample :
    stepA initialState ⟨.object (some "interrompida") none, true⟩ 1000
      = ⟨⟨"interrompida", 1000, true⟩, false⟩ ∧
    stepA ⟨"interrompida", 1000, true⟩ ⟨.object (some "livre") none, false⟩ 1050
      = ⟨⟨"livre", 1000, true⟩, false⟩ ∧
    stepA ⟨"interrompida", 0, true⟩ ⟨.object (some "livre") none, false⟩ 1050
      = ⟨⟨"livre", 1050, true⟩, true⟩ := by decide

/-- C6 amended: the first message after (re)connect that is marked
retained, processed from a reachable not-yet-established state (where
`_last_state` is still `"unknown"` and `_last_transition_ms` is 0), does
seed the baseline — `_initialized` becomes true and `_last_state` takes
the normalized value — and produces no CountEvent; but it runs through
the normal accept path, so `_last_transition_ms` is set to its arrival
instant, and a live transition arriving within the debounce interval
afterwards is therefore rejected. -/
theorem C6_retained_seeding (s : DetectorState) (m : Message) (t : Nat)
    (st : String) (hret : m.retained = true)
    (hb : s.baselineEstablished = false) (hinv : reachInvA s)
    (hm : msgStateA m = some st) :
    stepA s m t = ⟨⟨st, t, true⟩, false⟩ := by
  obtain ⟨hu, h0⟩ := hinv hb
  rw [stepA_some s t hm,
    if_neg (by rw [Bool.and_eq_true]; rintro ⟨-, h⟩; rw [hb] at h; exact Bool.noConfusion h),
    if_neg (by simp [h0])]
  simp [hu]

/-- C6 witness: the seeding step on the concrete retained `interrompida`
from startup. -/
theorem C6_retained_seeding_witness :
    stepA initialState ⟨.object (some "interrompida") none, true⟩ 1000
      = ⟨⟨"interrompida", 1000, true⟩, false⟩ :=
  C6_retained_seeding initialState ⟨.object (some "interrompida") none, true⟩
    1000 "interrompida" rfl rfl (fun _ => ⟨rfl, rfl⟩) (by decide)

end PizzaDetector
